import Mathlib

/-!
Shallow embedding of the RF24Mesh layer (RF24Mesh.cpp / RF24Mesh.hpp) for
checking the natural-language specification against the implementation.

Machine integers are modelled as Nat with explicit truncation (mod 2^8 or
2^16) exactly where the C++ code narrows a value.  The radio and the
network layer are external collaborators; their observable inputs to the
mesh code (classified message type of the last inbound frame, success of a
network write, elapsed milliseconds at a loop check, fifo and flag status)
are passed in as explicit environment values, so every mesh function is a
pure function of its state and its environment.
-/

set_option autoImplicit false

namespace RF24MeshModel

/-- Master node id (RF24MeshDefinitions.hpp is not under src; the spec fixes
id 0 and address 0 for the master, matching every use in RF24Mesh.cpp). -/
def MESH_MASTER_NODE_ID : Nat := 0

/-- Modelled from the spec: MESH_DEFAULT_ADDRESS is NETWORK_DEFAULT_ADDRESS,
whose definition is not under src; the spec fixes DEFAULT_ADDR = 0xFFFF
(the un-joined sentinel). -/
def MESH_DEFAULT_ADDRESS : Nat := 0xFFFF

/-- Modelled from the spec: MESH_EMPTY_ADDRESS is not under src; the spec
fixes EMPTY_ADDR = 0 (the cleared-address sentinel used by release). -/
def MESH_EMPTY_ADDRESS : Nat := 0

/-- From src/RF24Mesh_config.h: MESH_BLANK_ID = 65535. -/
def MESH_BLANK_ID : Nat := 65535

/-- Modelled from the spec: RF24Network::OCTAL_MASK is not under src; the
spec gives the child-digit mask 0x7 in newAddr = parent | ((k & 0x7) << (3 * depth)). -/
def OCTAL_MASK : Nat := 7

/-- Modelled from the spec: RF24Network::OCTAL_TO_BIN_BITSHIFT is not under
src; the spec gives 3 bits per octal digit. -/
def OCTAL_TO_BIN_BITSHIFT : Nat := 3

/-- Error kinds of the mesh layer (ErrorType in RF24MeshDefinitions.hpp is
not under src; the constructor set is the one listed by the spec and used
by RF24Mesh.cpp). -/
inductive ErrorType where
  | NO_ERROR
  | FAILED_INIT
  | NOT_CONFIGURED
  | INVALID_PARAM
  | PENDING_DATA
  | POLL_FAIL
  | NO_RESPONSE
  | FAILED_WRITE
  | FAILED_ADDR_LOOKUP
  | FAILED_ADDR_REQUEST
  | FAILED_ADDR_CONFIRM
  | TIMEOUT
deriving DecidableEq, Repr

/-- The message classifications of RF24Network relevant to the mesh layer
(the enum lives in the network layer, outside src; only the classification
is used by RF24Mesh.cpp). -/
inductive MessageType where
  | NO_MESSAGE
  | MESH_REQ_ADDRESS
  | MESH_ADDR_RESPONSE
  | MESH_ADDR_LOOKUP
  | MESH_ID_LOOKUP
  | MESH_ADDR_RELEASE
  | MESH_ADDR_CONFIRM
  | NETWORK_POLL
  | NETWORK_PING
  | OTHER
deriving DecidableEq, Repr

/-- One entry of the master binding table (struct NodeAddress in
RF24Mesh.hpp): a user node id (uint8) bound to a logical octal network
address (uint16). -/
structure NodeAddress where
  id : Nat
  logicalAddress : Nat
deriving DecidableEq, Repr

/-- The mesh object state (fields of class Mesh in RF24Mesh.hpp that the
verified operations read or write). -/
structure MeshState where
  meshNetworkAddress : Nat
  selfNodeID : Nat
  addressList : List NodeAddress
  lastID : Nat
  lastAddress : Nat
  oopsies : ErrorType
  processDHCP : Bool
deriving DecidableEq, Repr

/-- Position scan of Mesh::setAddress (RF24Mesh.cpp:662-674): the index of
the first entry whose id matches, or the list length when no entry matches. -/
def findPosition (nodeID : Nat) : List NodeAddress → Nat
  | [] => 0
  | e :: rest => if e.id = nodeID then 0 else findPosition nodeID rest + 1

/-- Mesh::setAddress (RF24Mesh.cpp:660-688): find the position of nodeID in
the list; append a new entry when absent, overwrite the entry in place when
present (insert-or-replace keyed by id). -/
def setAddress (nodeID address : Nat) (l : List NodeAddress) : List NodeAddress :=
  if findPosition nodeID l = l.length then
    l ++ [⟨nodeID, address⟩]
  else
    l.set (findPosition nodeID l) ⟨nodeID, address⟩

/-- Recursive restatement of setAddress used by the proofs: replace the
first entry keyed by nodeID, else append. Proven equal to setAddress. -/
def setAddressRec (nodeID address : Nat) : List NodeAddress → List NodeAddress
  | [] => [⟨nodeID, address⟩]
  | e :: rest =>
    if e.id = nodeID then ⟨nodeID, address⟩ :: rest
    else e :: setAddressRec nodeID address rest

/-- Mesh::releaseDHCPAddress (RF24Mesh.cpp:784-793): every entry holding the
released logical address keeps its id and has its address cleared to
MESH_EMPTY_ADDRESS. -/
def releaseDHCPAddress (address : Nat) : List NodeAddress → List NodeAddress
  | [] => []
  | e :: rest =>
    (if e.logicalAddress = address then ⟨e.id, MESH_EMPTY_ADDRESS⟩ else e)
      :: releaseDHCPAddress address rest

/-- Mesh::confirmDHCPAddress (RF24Mesh.cpp:795-801): when the argument (the
srcNode field of the inbound confirm frame) equals the last offered address,
commit (lastID mod 256, lastAddress) into the table; lastID is a uint16 and
setAddress takes a uint8 id, so the C++ call narrows it. -/
def confirmDHCPAddress (address : Nat) (st : MeshState) : MeshState :=
  if address = st.lastAddress then
    { st with addressList := setAddress (st.lastID % 256) st.lastAddress st.addressList }
  else
    st

/-- First-match scan of the master branch of Mesh::getAddress
(RF24Mesh.cpp:245-252): the first entry keyed by the node id, if any. -/
def findEntry (nodeID : Nat) : List NodeAddress → Option NodeAddress
  | [] => none
  | e :: rest => if e.id = nodeID then some e else findEntry nodeID rest

/-- Reinterpretation of a uint16 value as the int16 return value of
Mesh::getAddress. -/
def toInt16 (n : Nat) : Int :=
  if n % 65536 < 32768 then (n % 65536 : Int) else (n % 65536 : Int) - 65536

/-- Master-side find-by-id of Mesh::getAddress (RF24Mesh.cpp:241-256): the
first matching entry's logical address, or -1 when the id is absent. -/
def masterLookup (nodeID : Nat) (l : List NodeAddress) : Int :=
  match findEntry nodeID l with
  | some e => toInt16 e.logicalAddress
  | none => -1

/-- Outcome of the remote half of Mesh::getAddress as seen by the mesh code:
the network write of the MESH_ADDR_LOOKUP request fails, or no
MESH_ADDR_LOOKUP-classified frame arrives within the 150 ms wait, or a reply
arrives carrying an int16 value. -/
inductive LookupNet where
  | writeFail
  | timedOut
  | reply (v : Int)
deriving DecidableEq, Repr

/-- The wait bound of the remote lookup loop in Mesh::getAddress
(RF24Mesh.cpp:283, local constant timeout = 150). -/
def lookupWaitMs : Nat := 150

/-- Mesh::getAddress (RF24Mesh.cpp:236-305).  On the master (selfNodeID 0):
first-match table scan, -1 and NOT_CONFIGURED when absent.  On an
unconfigured node: -1 and NOT_CONFIGURED.  On a configured non-master:
node id 0 yields 0 with INVALID_PARAM; otherwise the result is driven by
the network outcome: -1 and FAILED_WRITE on write failure, -1 and
FAILED_ADDR_LOOKUP on timeout, and for a reply v the value v when
non-negative, else -2. -/
def getAddress (st : MeshState) (nodeID : Nat) (net : LookupNet) : Int × ErrorType :=
  if st.selfNodeID = MESH_MASTER_NODE_ID then
    match findEntry nodeID st.addressList with
    | some e => (toInt16 e.logicalAddress, st.oopsies)
    | none => (-1, ErrorType.NOT_CONFIGURED)
  else if st.meshNetworkAddress = MESH_DEFAULT_ADDRESS then
    (-1, ErrorType.NOT_CONFIGURED)
  else if nodeID = MESH_MASTER_NODE_ID then
    (0, ErrorType.INVALID_PARAM)
  else
    match net with
    | LookupNet.writeFail => (-1, ErrorType.FAILED_WRITE)
    | LookupNet.timedOut => (-1, ErrorType.FAILED_ADDR_LOOKUP)
    | LookupNet.reply v => (if 0 ≤ v then v else -2, st.oopsies)

/-- Modelled from the spec: RF24Network::Node::getLevel is not under src;
the spec defines depth = octalDigits(parent), the count of octal digits of
the parent address.  Structural fuel of 16 covers every 16-bit address. -/
def getLevelAux : Nat → Nat → Nat
  | 0, _ => 0
  | fuel + 1, n => if n = 0 then 0 else getLevelAux fuel (n / 8) + 1

/-- Octal depth of a parent address (see getLevelAux). -/
def getLevel (n : Nat) : Nat := getLevelAux 16 n

/-- Bit scan of Mesh::assignDHCPAddress (RF24Mesh.cpp:858-866): for i from 0
to 7, the first clear bit i of the child bitmap yields idx = i + 1; if all
eight bits are set, idx stays 0. -/
def findFreeSlot (mask : Nat) : Nat → Nat → Nat
  | 0, _ => 0
  | fuel + 1, i => if mask.testBit i = false then i + 1 else findFreeSlot mask fuel (i + 1)

/-- The child-slot index chosen by Mesh::assignDHCPAddress from a child
bitmap (see findFreeSlot). -/
def firstFreeIdx (mask : Nat) : Nat := findFreeSlot mask 8 0

/-- Header fields of the latched DHCP frame read by Mesh::assignDHCPAddress
(dstNode and srcNode are uint16 fields, reserved is the uint8 field carrying
the requester node id). -/
structure FrameHeader where
  dstNode : Nat
  srcNode : Nat
  reserved : Nat
deriving DecidableEq, Repr

/-- Environment of one Mesh::assignDHCPAddress run: the latched request
frame (header, parent address from the first two payload bytes, child
bitmap byte at payload offset 3), the master's own child bit field, and
whether a MESH_ADDR_CONFIRM-classified frame arrives within
network.routeTimeout during the inline wait loop. -/
structure AssignInput where
  header : FrameHeader
  parentNode : Nat
  msgByte3 : Nat
  masterChildBitField : Nat
  confirmArrives : Bool
deriving DecidableEq, Repr

/-- Result of Mesh::assignDHCPAddress: whether an ADDR_RESPONSE write was
issued, the offered address, and the mesh state after the run. -/
structure AssignResult where
  sentResponse : Bool
  offeredAddress : Nat
  state : MeshState
deriving DecidableEq, Repr

/-- The child bitmap Mesh::assignDHCPAddress works from
(RF24Mesh.cpp:836-850): the master's own bit field when the request came
directly to the master from an unjoined node, else the byte attached at
payload offset 3. -/
def availableMask (inp : AssignInput) : Nat :=
  if inp.header.dstNode = MESH_MASTER_NODE_ID ∧ inp.header.srcNode = MESH_DEFAULT_ADDRESS then
    inp.masterChildBitField
  else
    inp.msgByte3

/-- The candidate address Mesh::assignDHCPAddress computes
(RF24Mesh.cpp:855-870): parent | ((idx & OCTAL_MASK) << (level * 3)),
truncated to uint16 by the store into newAddress. -/
def candidateAddress (inp : AssignInput) : Nat :=
  (inp.parentNode |||
    ((firstFreeIdx (availableMask inp) &&& OCTAL_MASK) <<<
      (getLevel inp.parentNode * OCTAL_TO_BIN_BITSHIFT))) % 65536

/-- Mesh::assignDHCPAddress (RF24Mesh.cpp:820-919): compute the candidate
address from the parent and the child bitmap alone, always send the
ADDR_RESPONSE (routed when the requester has an address, direct otherwise),
record the pending offer (lastAddress := candidate, lastID := the frame's
srcNode), then wait inline for a MESH_ADDR_CONFIRM classification: on
arrival commit (reserved byte, candidate) via setAddress; on route timeout
record TIMEOUT and commit nothing (the pending pair is left in place). -/
def assignDHCPAddress (st : MeshState) (inp : AssignInput) : AssignResult :=
  let newAddress := candidateAddress inp
  let st1 := { st with lastAddress := newAddress, lastID := inp.header.srcNode }
  if inp.confirmArrives then
    { sentResponse := true
      offeredAddress := newAddress
      state := { st1 with
        addressList := setAddress inp.header.reserved newAddress st1.addressList } }
  else
    { sentResponse := true
      offeredAddress := newAddress
      state := { st1 with oopsies := ErrorType.TIMEOUT } }

/-- Environment of one Mesh::update call: the classification returned by
network.update() and the header of the frame buffer. -/
structure UpdateEnv where
  incoming : MessageType
  header : FrameHeader
deriving DecidableEq, Repr

/-- Result of Mesh::update: the returned classification, the new state, and
the observable effects (whether network.update() was pumped and whether a
master dispatch of lookup, release or confirm ran). -/
structure UpdateResult where
  ret : MessageType
  st : MeshState
  pumped : Bool
  dispatched : Bool
deriving DecidableEq, Repr

/-- Mesh::update (RF24Mesh.cpp:62-123).  Unconfigured (local address still
MESH_DEFAULT_ADDRESS): record NOT_CONFIGURED and return NO_MESSAGE without
pumping the network or dispatching.  Otherwise pump the network, latch the
DHCP flag on REQ_ADDRESS or ADDR_RESPONSE, and on the master dispatch
lookup, release and confirm frames synchronously. -/
def update (st : MeshState) (env : UpdateEnv) : UpdateResult :=
  if st.meshNetworkAddress = MESH_DEFAULT_ADDRESS then
    { ret := MessageType.NO_MESSAGE
      st := { st with oopsies := ErrorType.NOT_CONFIGURED }
      pumped := false
      dispatched := false }
  else
    let t := env.incoming
    let st1 :=
      if t = MessageType.MESH_REQ_ADDRESS ∨ t = MessageType.MESH_ADDR_RESPONSE then
        { st with processDHCP := true }
      else st
    if st1.selfNodeID = MESH_MASTER_NODE_ID then
      if t = MessageType.MESH_ADDR_LOOKUP ∨ t = MessageType.MESH_ID_LOOKUP then
        { ret := t, st := st1, pumped := true, dispatched := true }
      else if t = MessageType.MESH_ADDR_RELEASE then
        { ret := t
          st := { st1 with addressList := releaseDHCPAddress env.header.srcNode st1.addressList }
          pumped := true
          dispatched := true }
      else if t = MessageType.MESH_ADDR_CONFIRM then
        { ret := t, st := confirmDHCPAddress env.header.srcNode st1, pumped := true, dispatched := true }
      else
        { ret := t, st := st1, pumped := true, dispatched := false }
    else
      { ret := t, st := st1, pumped := true, dispatched := false }

/-- One loop iteration environment of Mesh::checkConnection: the fifo-full
status, the HOLD_INCOMING flag, and whether the ping write succeeds. -/
structure CheckIter where
  rxFifoFull : Bool
  holdIncoming : Bool
  pingOk : Bool
deriving DecidableEq, Repr

/-- Result of Mesh::checkConnection: the returned flag, the number of ping
writes issued, the delays issued (one 103 ms delay after each failed ping),
and whether radio.stopListening() was called at the end. -/
structure CheckResult where
  result : Bool
  pings : Nat
  delays : List Nat
  stopped : Bool
deriving DecidableEq, Repr

/-- The attempt loop of Mesh::checkConnection (RF24Mesh.cpp:194-223), at
most three iterations: return true on a full fifo or a held flag without
pinging, return true on a successful ping write, else delay 103 ms and
retry. -/
def checkLoop (env : Nat → CheckIter) : Nat → Nat → Bool × Nat × List Nat
  | 0, _ => (false, 0, [])
  | fuel + 1, i =>
    if (env i).rxFifoFull ∨ (env i).holdIncoming then (true, 0, [])
    else if (env i).pingOk then (true, 1, [])
    else
      let r := checkLoop env fuel (i + 1)
      (r.1, r.2.1 + 1, 103 :: r.2.2)

/-- Mesh::checkConnection (RF24Mesh.cpp:186-234): the loop runs only while
the node is configured; when the final result is false the radio is placed
in standby via stopListening, and no listening-mode call is made otherwise. -/
def checkConnection (st : MeshState) (env : Nat → CheckIter) : CheckResult :=
  if st.meshNetworkAddress = MESH_DEFAULT_ADDRESS then
    { result := false, pings := 0, delays := [], stopped := true }
  else
    let r := checkLoop env 3 0
    { result := r.1, pings := r.2.1, delays := r.2.2, stopped := !r.1 }

/-- Result of Mesh::releaseAddress: the returned flag, the new state,
whether the MESH_ADDR_RELEASE write was attempted, and whether
network.setAddress(MESH_DEFAULT_ADDRESS) was called. -/
structure ReleaseResult where
  ok : Bool
  st : MeshState
  sentRelease : Bool
  networkAddrReset : Bool
deriving DecidableEq, Repr

/-- Mesh::releaseAddress (RF24Mesh.cpp:378-400): NOT_CONFIGURED and false on
an unconfigured node; otherwise write MESH_ADDR_RELEASE to the master and,
only when the write succeeds, reset both the network address and the local
mesh address to MESH_DEFAULT_ADDRESS and return true; a failed write
returns false leaving the state (including oopsies) untouched. -/
def releaseAddress (st : MeshState) (writeOk : Bool) : ReleaseResult :=
  if st.meshNetworkAddress = MESH_DEFAULT_ADDRESS then
    { ok := false
      st := { st with oopsies := ErrorType.NOT_CONFIGURED }
      sentRelease := false
      networkAddrReset := false }
  else if writeOk then
    { ok := true
      st := { st with meshNetworkAddress := MESH_DEFAULT_ADDRESS }
      sentRelease := true
      networkAddrReset := true }
  else
    { ok := false, st := st, sentRelease := true, networkAddrReset := false }

/-- Environment of one Mesh::renewAddress call: whether radio data is
pending at entry, the address installed by a successful requestAddress run,
and one entry per requestAddress attempt giving its success flag and the
milliseconds elapsed at the post-attempt budget check. -/
structure RenewEnv where
  radioAvailable : Bool
  grantedAddress : Nat
  attempts : List (Bool × Nat)
deriving DecidableEq, Repr

/-- Result of Mesh::renewAddress: the returned flag, the error recorded by
renewAddress itself (none when it records none), the final local mesh
address, the value written through the newAddress out-parameter (none when
untouched), the backoff delays issued, and the poll level passed to each
requestAddress attempt. -/
structure RenewResult where
  result : Bool
  meshErr : Option ErrorType
  finalAddress : Nat
  newAddressOut : Option Nat
  delays : List Nat
  levels : List Nat
deriving DecidableEq, Repr

/-- The retry loop of Mesh::renewAddress (RF24Mesh.cpp:436-458) with the
accumulators reqCounter (rc) and totalReqs (tr): run requestAddress at poll
level rc; on success stop with true; on failure stop with false when the
elapsed time exceeds the budget, else delay 50 + ((tr+1)*(rc+1))*2 ms and
continue with rc := (rc+1) % 4 and tr := (tr+1) % 10.  Returns the outcome
(none while the trace is exhausted and the loop still runs), the delays
issued and the levels attempted. -/
def renewLoop (timeout rc tr : Nat) : List (Bool × Nat) → Option Bool × List Nat × List Nat
  | [] => (none, [], [])
  | (succ, elapsed) :: rest =>
    if succ then (some true, [], [rc])
    else if timeout < elapsed then (some false, [], [rc])
    else
      let r := renewLoop timeout ((rc + 1) % 4) ((tr + 1) % 10) rest
      (r.1, (50 + ((tr + 1) * (rc + 1)) * 2) :: r.2.1, rc :: r.2.2)

/-- Mesh::renewAddress (RF24Mesh.cpp:402-478): with radio data pending,
record PENDING_DATA and fail without touching the local address; otherwise
reset the local address to MESH_DEFAULT_ADDRESS before the first attempt
and run the retry loop; a loop timeout records TIMEOUT, leaves the address
at MESH_DEFAULT_ADDRESS and reports MESH_BLANK_ID through the
out-parameter; success reports the granted address.  none when the attempt
trace is exhausted with the loop still running. -/
def renewAddress (st : MeshState) (env : RenewEnv) (timeout : Nat) : Option RenewResult :=
  if env.radioAvailable then
    some { result := false
           meshErr := some ErrorType.PENDING_DATA
           finalAddress := st.meshNetworkAddress
           newAddressOut := none
           delays := []
           levels := [] }
  else
    match (renewLoop timeout 0 0 env.attempts).1 with
    | none => none
    | some true =>
      some { result := true
             meshErr := none
             finalAddress := env.grantedAddress
             newAddressOut := some env.grantedAddress
             delays := (renewLoop timeout 0 0 env.attempts).2.1
             levels := (renewLoop timeout 0 0 env.attempts).2.2 }
    | some false =>
      some { result := false
             meshErr := some ErrorType.TIMEOUT
             finalAddress := MESH_DEFAULT_ADDRESS
             newAddressOut := some MESH_BLANK_ID
             delays := (renewLoop timeout 0 0 env.attempts).2.1
             levels := (renewLoop timeout 0 0 env.attempts).2.2 }

/-- The administrative and protocol operations that mutate the master
binding table, as dispatched by Mesh::update and the public API: the
administrative setAddress, a full assignDHCPAddress run, a confirm
dispatch, and a release dispatch. -/
inductive MasterOp where
  | setAddr (id addr : Nat)
  | assign (inp : AssignInput)
  | confirm (srcAddr : Nat)
  | release (addr : Nat)
deriving DecidableEq, Repr

/-- State transition of one MasterOp. -/
def applyOp (st : MeshState) : MasterOp → MeshState
  | MasterOp.setAddr id addr => { st with addressList := setAddress id addr st.addressList }
  | MasterOp.assign inp => (assignDHCPAddress st inp).state
  | MasterOp.confirm srcAddr => confirmDHCPAddress srcAddr st
  | MasterOp.release addr => { st with addressList := releaseDHCPAddress addr st.addressList }

/-- The address-uniqueness property claimed for the binding table: no two
entries with distinct ids hold the same non-zero logical address. -/
def addrClashFree (l : List NodeAddress) : Prop :=
  ∀ a ∈ l, ∀ b ∈ l, a.id ≠ b.id → a.logicalAddress = b.logicalAddress → a.logicalAddress = 0

instance (l : List NodeAddress) : Decidable (addrClashFree l) := by
  unfold addrClashFree
  infer_instance

/-- The id-uniqueness property of the binding table: the entry ids are
pairwise distinct. -/
def idUnique (l : List NodeAddress) : Prop :=
  (l.map NodeAddress.id).Nodup

instance (l : List NodeAddress) : Decidable (idUnique l) := by
  unfold idUnique
  infer_instance

/-- A checkConnection loop iteration that makes the loop succeed: full rx
fifo, held incoming flag, or a successful ping write. -/
def iterSignal (it : CheckIter) : Prop :=
  it.rxFifoFull = true ∨ it.holdIncoming = true ∨ it.pingOk = true

instance (it : CheckIter) : Decidable (iterSignal it) := by
  unfold iterSignal
  infer_instance

/-- Master state with an empty binding table and no pending offer. -/
def emptyMaster : MeshState :=
  { meshNetworkAddress := 0
    selfNodeID := 0
    addressList := []
    lastID := 0
    lastAddress := 0
    oopsies := ErrorType.NO_ERROR
    processDHCP := false }

/-- C1 scenario: an address request forwarded by the node at logical
address 5 on behalf of requester node id 7, whose inline confirm wait
times out. -/
def c1Input : AssignInput :=
  { header := { dstNode := 0, srcNode := 5, reserved := 7 }
    parentNode := 0
    msgByte3 := 0
    masterChildBitField := 0
    confirmArrives := false }

/-- C1 scenario: master state before the offer. -/
def c1State : MeshState := emptyMaster

/-- C2 scenario: master state in which node id 9 already owns address 1. -/
def c2State : MeshState :=
  { emptyMaster with addressList := [{ id := 9, logicalAddress := 1 }] }

/-- C2 scenario: a direct address request to the master from unjoined
requester node id 7, master child bit field all free. -/
def c2Input : AssignInput :=
  { header := { dstNode := 0, srcNode := MESH_DEFAULT_ADDRESS, reserved := 7 }
    parentNode := 0
    msgByte3 := 0
    masterChildBitField := 0
    confirmArrives := true }

/-- C2 witness scenario: a routed request whose attached child bitmap says
all eight slots are taken. -/
def c2FullInput : AssignInput :=
  { header := { dstNode := 0, srcNode := 5, reserved := 7 }
    parentNode := 1
    msgByte3 := 255
    masterChildBitField := 0
    confirmArrives := true }

/-- C5 scenario: master state whose only entry is the released binding of
node id 7. -/
def c5MasterState : MeshState :=
  { emptyMaster with addressList := [{ id := 7, logicalAddress := MESH_EMPTY_ADDRESS }] }

/-- C4 witness scenario: master state binding node id 3 to address 9. -/
def c4WitState : MeshState :=
  { emptyMaster with addressList := [{ id := 3, logicalAddress := 9 }] }

/-- Configured non-master node state (joined at address 1, node id 7). -/
def confNode : MeshState :=
  { meshNetworkAddress := 1
    selfNodeID := 7
    addressList := []
    lastID := 0
    lastAddress := 0
    oopsies := ErrorType.NO_ERROR
    processDHCP := false }

/-- Unconfigured non-master node state (local address still the default). -/
def unconfNode : MeshState :=
  { meshNetworkAddress := MESH_DEFAULT_ADDRESS
    selfNodeID := 7
    addressList := []
    lastID := 0
    lastAddress := 0
    oopsies := ErrorType.NO_ERROR
    processDHCP := false }

/-- C8 scenario: the rx fifo is full on every iteration. -/
def c8EnvFifo : Nat → CheckIter := fun _ =>
  { rxFifoFull := true, holdIncoming := false, pingOk := false }

/-- C8 witness scenario: no signal at all, then a successful ping on the
second iteration. -/
def c8EnvPing : Nat → CheckIter := fun i =>
  if i = 1 then { rxFifoFull := false, holdIncoming := false, pingOk := true }
  else { rxFifoFull := false, holdIncoming := false, pingOk := false }

/-- C6 witness scenario: radio data pending at entry. -/
def c6EnvPending : RenewEnv :=
  { radioAvailable := true, grantedAddress := 0, attempts := [] }

/-- C6 scenario for the timeout clause: two failed attempts inside the
budget, then a failed attempt checked past the budget. -/
def c6EnvTimeout : RenewEnv :=
  { radioAvailable := false
    grantedAddress := 0
    attempts := [(false, 40), (false, 90), (false, 160), (false, 170)] }

/-- C7 witness scenario: five failed attempts, every check within the
budget. -/
def c7Trace : List (Bool × Nat) :=
  [(false, 10), (false, 20), (false, 30), (false, 40), (false, 50)]

/-! Helper lemmas about the binding-table operations. -/

theorem setAddress_eq_rec (i a : Nat) (l : List NodeAddress) :
    setAddress i a l = setAddressRec i a l := by
  induction l with
  | nil => simp [setAddress, setAddressRec, findPosition]
  | cons x xs ih =>
    by_cases h : x.id = i
    · simp [setAddress, setAddressRec, findPosition, h]
    · have hfp : findPosition i (x :: xs) = findPosition i xs + 1 := by
        simp [findPosition, h]
      have hrec : setAddressRec i a (x :: xs) = x :: setAddressRec i a xs := by
        simp [setAddressRec, h]
      rw [hrec, ← ih]
      by_cases h2 : findPosition i xs = xs.length
      · have hpos : findPosition i (x :: xs) = (x :: xs).length := by
          rw [hfp, List.length_cons, h2]
        rw [setAddress, if_pos hpos, setAddress, if_pos h2]
        simp
      · have hpos : findPosition i (x :: xs) ≠ (x :: xs).length := by
          rw [hfp, List.length_cons]
          omega
        rw [setAddress, if_neg hpos, setAddress, if_neg h2, hfp]
        simp

theorem map_id_setAddressRec (i a : Nat) (l : List NodeAddress) :
    (setAddressRec i a l).map NodeAddress.id =
      if i ∈ l.map NodeAddress.id then l.map NodeAddress.id
      else l.map NodeAddress.id ++ [i] := by
  induction l with
  | nil => simp [setAddressRec]
  | cons x xs ih =>
    by_cases h : x.id = i
    · simp [setAddressRec, h]
    · have hne : ¬ i = x.id := fun hc => h hc.symm
      by_cases h2 : i ∈ xs.map NodeAddress.id
      · simp [setAddressRec, h, ih, h2, hne]
      · simp [setAddressRec, h, ih, h2, hne]

theorem idUnique_setAddress (i a : Nat) (l : List NodeAddress) (h : idUnique l) :
    idUnique (setAddress i a l) := by
  unfold idUnique at h ⊢
  rw [setAddress_eq_rec, map_id_setAddressRec]
  by_cases h2 : i ∈ l.map NodeAddress.id
  · simpa [h2]
  · simp only [h2, if_false, if_neg]
    simp [List.nodup_append, h, h2]

theorem map_id_releaseDHCPAddress (a : Nat) (l : List NodeAddress) :
    (releaseDHCPAddress a l).map NodeAddress.id = l.map NodeAddress.id := by
  induction l with
  | nil => rfl
  | cons x xs ih =>
    by_cases h : x.logicalAddress = a <;> simp [releaseDHCPAddress, h, ih]

theorem releaseDHCPAddress_eq_map (a : Nat) (l : List NodeAddress) :
    releaseDHCPAddress a l =
      l.map (fun e => if e.logicalAddress = a then ⟨e.id, MESH_EMPTY_ADDRESS⟩ else e) := by
  induction l with
  | nil => rfl
  | cons x xs ih => simp [releaseDHCPAddress, ih]

theorem findEntry_setAddressRec_self (i a : Nat) (l : List NodeAddress) :
    findEntry i (setAddressRec i a l) = some ⟨i, a⟩ := by
  induction l with
  | nil => simp [setAddressRec, findEntry]
  | cons x xs ih =>
    by_cases h : x.id = i <;> simp [setAddressRec, findEntry, h, ih]

theorem masterLookup_setAddress_self (i a : Nat) (l : List NodeAddress) :
    masterLookup i (setAddress i a l) = toInt16 a := by
  rw [setAddress_eq_rec]
  unfold masterLookup
  rw [findEntry_setAddressRec_self]

theorem findEntry_eq_find? (i : Nat) (l : List NodeAddress) :
    findEntry i l = l.find? (fun e => e.id = i) := by
  induction l with
  | nil => rfl
  | cons x xs ih =>
    by_cases h : x.id = i <;> simp [findEntry, h, ih]

theorem masterLookup_release_found (id : Nat) (l₁ l₂ : List NodeAddress) (e : NodeAddress)
    (h1 : ∀ x ∈ l₁, x.id ≠ id) (h2 : e.id = id) :
    masterLookup id (releaseDHCPAddress e.logicalAddress (l₁ ++ e :: l₂)) = 0 := by
  induction l₁ with
  | nil =>
    simp [releaseDHCPAddress, masterLookup, findEntry, h2, toInt16, MESH_EMPTY_ADDRESS]
  | cons x xs ih =>
    have hx : x.id ≠ id := h1 x (by simp)
    have ih2 := ih (fun y hy => h1 y (by simp [hy]))
    by_cases h : x.logicalAddress = e.logicalAddress
    · simpa [releaseDHCPAddress, masterLookup, findEntry, h, hx] using ih2
    · simpa [releaseDHCPAddress, masterLookup, findEntry, h, hx] using ih2

theorem checkLoop_true_iff (env : Nat → CheckIter) (fuel i : Nat) :
    (checkLoop env fuel i).1 = true ↔ ∃ j < fuel, iterSignal (env (i + j)) := by
  induction fuel generalizing i with
  | zero => simp [checkLoop]
  | succ n ih =>
    by_cases h1 : (env i).rxFifoFull = true ∨ (env i).holdIncoming = true
    · have hsig : iterSignal (env i) := by
        rcases h1 with h | h
        · exact Or.inl h
        · exact Or.inr (Or.inl h)
      constructor
      · intro _
        exact ⟨0, by omega, by simpa using hsig⟩
      · intro _
        simp [checkLoop, h1]
    · have h1b : ((env i).rxFifoFull ∨ (env i).holdIncoming) = False := by
        simp only [eq_iff_iff, iff_false]
        intro hc
        rcases hc with hc | hc
        · exact h1 (Or.inl hc)
        · exact h1 (Or.inr hc)
      by_cases h2 : (env i).pingOk = true
      · constructor
        · intro _
          exact ⟨0, by omega, by simp [iterSignal, h2]⟩
        · intro _
          simp [checkLoop, h1b, h2]
      · have hstep : (checkLoop env (n + 1) i).1 = (checkLoop env n (i + 1)).1 := by
          simp [checkLoop, h1b, h2]
        rw [hstep, ih]
        constructor
        · rintro ⟨j, hj, hsig⟩
          exact ⟨j + 1, by omega, by simpa [Nat.add_assoc, Nat.add_comm 1 j] using hsig⟩
        · rintro ⟨j, hj, hsig⟩
          match j, hsig with
          | 0, hsig =>
            exfalso
            rcases hsig with h | h | h
            · exact h1 (Or.inl (by simpa using h))
            · exact h1 (Or.inr (by simpa using h))
            · exact h2 (by simpa using h)
          | j + 1, hsig =>
            exact ⟨j, by omega, by simpa [Nat.add_assoc, Nat.add_comm 1 j] using hsig⟩

theorem checkLoop_pings_le (env : Nat → CheckIter) (fuel i : Nat) :
    (checkLoop env fuel i).2.1 ≤ fuel := by
  induction fuel generalizing i with
  | zero => simp [checkLoop]
  | succ n ih =>
    unfold checkLoop
    split
    · simp
    · split
      · simp
      · simpa using Nat.add_le_add_right (ih (i + 1)) 1

theorem checkLoop_delays (env : Nat → CheckIter) (fuel i : Nat) :
    ∀ d ∈ (checkLoop env fuel i).2.2, d = 103 := by
  induction fuel generalizing i with
  | zero => simp [checkLoop]
  | succ n ih =>
    unfold checkLoop
    split
    · simp
    · split
      · simp
      · intro d hd
        simp only [List.mem_cons] at hd
        rcases hd with rfl | hd
        · rfl
        · exact ih (i + 1) d hd

theorem renewLoop_all_fail (timeout : Nat) (t : List (Bool × Nat)) (rc tr : Nat)
    (hrc : rc < 4) (htr : tr < 10)
    (h : ∀ x ∈ t, x.1 = false ∧ x.2 ≤ timeout) :
    (renewLoop timeout rc tr t).2.1 =
        List.ofFn (fun j : Fin t.length =>
          50 + (((tr + (j : Nat)) % 10) + 1) * (((rc + (j : Nat)) % 4) + 1) * 2)
    ∧ (renewLoop timeout rc tr t).2.2 =
        List.ofFn (fun j : Fin t.length => (rc + (j : Nat)) % 4) := by
  induction t generalizing rc tr with
  | nil => simp [renewLoop]
  | cons x xs ih =>
    obtain ⟨hx1, hx2⟩ := h x (by simp)
    obtain ⟨succ, elapsed⟩ := x
    simp only at hx1 hx2
    subst hx1
    have hnlt : ¬ timeout < elapsed := by omega
    have ihr := ih ((rc + 1) % 4) ((tr + 1) % 10)
      (Nat.mod_lt _ (by omega)) (Nat.mod_lt _ (by omega))
      (fun y hy => h y (by simp [hy]))
    have hstep :
        renewLoop timeout rc tr ((false, elapsed) :: xs) =
          ((renewLoop timeout ((rc + 1) % 4) ((tr + 1) % 10) xs).1,
            (50 + ((tr + 1) * (rc + 1)) * 2) ::
              (renewLoop timeout ((rc + 1) % 4) ((tr + 1) % 10) xs).2.1,
            rc :: (renewLoop timeout ((rc + 1) % 4) ((tr + 1) % 10) xs).2.2) := by
      simp [renewLoop, hnlt]
    constructor
    · rw [hstep]
      simp only [List.length_cons, List.ofFn_succ, Fin.val_zero, Nat.add_zero]
      rw [Nat.mod_eq_of_lt htr, Nat.mod_eq_of_lt hrc]
      congr 1
      rw [ihr.1]
      congr 1
      funext j
      simp only [Fin.val_succ]
      rw [Nat.mod_add_mod, Nat.mod_add_mod]
      have h10 : tr + 1 + (j : Nat) = tr + ((j : Nat) + 1) := by omega
      have h4 : rc + 1 + (j : Nat) = rc + ((j : Nat) + 1) := by omega
      rw [h10, h4]
    · rw [hstep]
      simp only [List.length_cons, List.ofFn_succ, Fin.val_zero, Nat.add_zero]
      rw [Nat.mod_eq_of_lt hrc]
      congr 1
      rw [ihr.2]
      congr 1
      funext j
      simp only [Fin.val_succ]
      rw [Nat.mod_add_mod]
      congr 1
      omega

theorem renewLoop_stops_at_timeout (timeout : Nat) (pre post : List (Bool × Nat))
    (e : Nat) (rc tr : Nat)
    (hpre : ∀ x ∈ pre, x.1 = false ∧ x.2 ≤ timeout) (he : timeout < e) :
    (renewLoop timeout rc tr (pre ++ (false, e) :: post)).1 = some false ∧
    (renewLoop timeout rc tr (pre ++ (false, e) :: post)).2.2.length = pre.length + 1 := by
  induction pre generalizing rc tr with
  | nil => simp [renewLoop, he]
  | cons x xs ih =>
    obtain ⟨hx1, hx2⟩ := hpre x (by simp)
    obtain ⟨succ, elapsed⟩ := x
    simp only at hx1 hx2
    subst hx1
    have hnlt : ¬ timeout < elapsed := by omega
    have ihr := ih ((rc + 1) % 4) ((tr + 1) % 10) (fun y hy => hpre y (by simp [hy]))
    constructor
    · simpa [renewLoop, hnlt] using ihr.1
    · simpa [renewLoop, hnlt] using ihr.2

/-! Claim theorems. -/

/-- C1 counterexample: an offer (requester node id 7 in the reserved byte,
forwarded with srcNode 5, offered address 1) whose inline confirm wait
times out is later confirmed through the update dispatch, and the binding
the master then commits is (5, 1) — the id committed is the srcNode field
of the offer, not the requester id 7 from the reserved byte, and the commit
happens although no confirm arrived within the route timeout. -/
theorem c1_counterexample :
    c1Input.header.reserved = 7 ∧
    c1Input.confirmArrives = false ∧
    (assignDHCPAddress c1State c1Input).offeredAddress = 1 ∧
    (assignDHCPAddress c1State c1Input).state.oopsies = ErrorType.TIMEOUT ∧
    (confirmDHCPAddress 1 (assignDHCPAddress c1State c1Input).state).addressList =
      [{ id := 5, logicalAddress := 1 }] ∧
    (confirmDHCPAddress 1 (assignDHCPAddress c1State c1Input).state).addressList ≠
      [{ id := 7, logicalAddress := 1 }] := by
  decide

/-- C1 amended: the master commits nothing when no MESH_ADDR_CONFIRM
classification arrives within the route timeout of the inline wait (it
records TIMEOUT but keeps the pending pair); when one arrives there, any
confirm is accepted and the commit is an insert-or-replace of (reserved
byte, offered address); a confirm handled by the update dispatch commits
only when its srcNode equals the last offered address, and the binding it
commits is (lastID mod 256, lastAddress) where lastID is the srcNode field
of the offer frame. -/
theorem c1_amended (st : MeshState) (inp : AssignInput) (a : Nat) :
    (inp.confirmArrives = false →
        (assignDHCPAddress st inp).state.addressList = st.addressList ∧
        (assignDHCPAddress st inp).state.oopsies = ErrorType.TIMEOUT ∧
        (assignDHCPAddress st inp).state.lastAddress = candidateAddress inp ∧
        (assignDHCPAddress st inp).state.lastID = inp.header.srcNode)
    ∧ (inp.confirmArrives = true →
        (assignDHCPAddress st inp).state.addressList =
          setAddress inp.header.reserved (candidateAddress inp) st.addressList ∧
        masterLookup inp.header.reserved (assignDHCPAddress st inp).state.addressList =
          toInt16 (candidateAddress inp))
    ∧ (a ≠ st.lastAddress → confirmDHCPAddress a st = st)
    ∧ (a = st.lastAddress →
        (confirmDHCPAddress a st).addressList =
          setAddress (st.lastID % 256) st.lastAddress st.addressList ∧
        masterLookup (st.lastID % 256) (confirmDHCPAddress a st).addressList =
          toInt16 st.lastAddress) := by
  refine ⟨fun h => ?_, fun h => ?_, fun h => ?_, fun h => ?_⟩
  · simp [assignDHCPAddress, h]
  · simp [assignDHCPAddress, h, masterLookup_setAddress_self]
  · simp [confirmDHCPAddress, h]
  · simp [confirmDHCPAddress, h, masterLookup_setAddress_self]

/-- C1 witness: on the concrete timed-out offer of the counterexample
scenario, the amended theorem yields that nothing was committed and TIMEOUT
was recorded. -/
theorem c1_witness :
    (assignDHCPAddress c1State c1Input).state.addressList = c1State.addressList ∧
    (assignDHCPAddress c1State c1Input).state.oopsies = ErrorType.TIMEOUT ∧
    (assignDHCPAddress c1State c1Input).state.lastAddress = candidateAddress c1Input ∧
    (assignDHCPAddress c1State c1Input).state.lastID = c1Input.header.srcNode :=
  (c1_amended c1State c1Input 0).1 rfl

/-- C2 counterexample: with node id 9 already bound to address 1 in the
table and a fresh direct request from node id 7 whose lowest free child
slot also yields candidate address 1, the engine neither advances to the
next free slot nor drops the request: it offers address 1 and sends the
ADDR_RESPONSE anyway. -/
theorem c2_counterexample :
    c2State.addressList = [{ id := 9, logicalAddress := 1 }] ∧
    c2Input.header.reserved = 7 ∧
    (assignDHCPAddress c2State c2Input).offeredAddress = 1 ∧
    (assignDHCPAddress c2State c2Input).sentResponse = true := by
  decide

/-- C2 amended: the DHCP engine computes the candidate address solely from
the parent address and the child bitmap (lowest clear bit of the mask; the
index stays 0 when all eight bits are set, so a full bitmap makes the
engine offer the parent's own address), never consults the binding table
when choosing it, and always sends an ADDR_RESPONSE. -/
theorem c2_amended (st : MeshState) (inp : AssignInput) (l : List NodeAddress) :
    (assignDHCPAddress st inp).sentResponse = true
    ∧ (assignDHCPAddress st inp).offeredAddress = candidateAddress inp
    ∧ candidateAddress inp =
        (inp.parentNode |||
          ((firstFreeIdx (availableMask inp) &&& OCTAL_MASK) <<<
            (getLevel inp.parentNode * OCTAL_TO_BIN_BITSHIFT))) % 65536
    ∧ (assignDHCPAddress { st with addressList := l } inp).offeredAddress =
        (assignDHCPAddress st inp).offeredAddress
    ∧ (assignDHCPAddress { st with addressList := l } inp).sentResponse =
        (assignDHCPAddress st inp).sentResponse
    ∧ (availableMask inp = 255 →
        (assignDHCPAddress st inp).offeredAddress = inp.parentNode % 65536) := by
  refine ⟨?_, ?_, rfl, ?_, ?_, fun h => ?_⟩
  · cases hc : inp.confirmArrives <;> simp [assignDHCPAddress, hc]
  · cases hc : inp.confirmArrives <;> simp [assignDHCPAddress, hc]
  · cases hc : inp.confirmArrives <;> simp [assignDHCPAddress, hc]
  · cases hc : inp.confirmArrives <;> simp [assignDHCPAddress, hc]
  · have hidx : firstFreeIdx (availableMask inp) = 0 := by
      rw [h]
      decide
    have hoff : (assignDHCPAddress st inp).offeredAddress = candidateAddress inp := by
      cases hc : inp.confirmArrives <;> simp [assignDHCPAddress, hc]
    rw [hoff]
    unfold candidateAddress
    rw [hidx]
    simp

/-- C2 witness: a request whose attached child bitmap is full (all eight
slots taken) still gets an ADDR_RESPONSE, offering the parent address 1
itself. -/
theorem c2_witness :
    (assignDHCPAddress c2State c2FullInput).offeredAddress =
      c2FullInput.parentNode % 65536 ∧
    (assignDHCPAddress c2State c2FullInput).sentResponse = true :=
  ⟨(c2_amended c2State c2FullInput []).2.2.2.2.2 (by decide),
   (c2_amended c2State c2FullInput []).1⟩

/-- C3 counterexample: two administrative setAddress operations from an
empty master table bind the distinct node ids 1 and 2 to the same non-zero
address 5, so the claimed address-uniqueness invariant fails. -/
theorem c3_counterexample :
    ([MasterOp.setAddr 1 5, MasterOp.setAddr 2 5].foldl applyOp emptyMaster).addressList =
      [{ id := 1, logicalAddress := 5 }, { id := 2, logicalAddress := 5 }] ∧
    ¬ addrClashFree
        (([MasterOp.setAddr 1 5, MasterOp.setAddr 2 5].foldl applyOp emptyMaster).addressList) := by
  decide

/-- C3 amended: the mutating operations enforce no address uniqueness; what
any sequence of administrative setAddress, DHCP assignment, confirmation
and release preserves is id uniqueness: starting from a table with
pairwise-distinct node ids, the table ids stay pairwise distinct. -/
theorem c3_amended (ops : List MasterOp) (st : MeshState)
    (h : idUnique st.addressList) :
    idUnique ((ops.foldl applyOp st).addressList) := by
  induction ops generalizing st with
  | nil => exact h
  | cons op rest ih =>
    simp only [List.foldl_cons]
    apply ih
    cases op with
    | setAddr i a => exact idUnique_setAddress i a _ h
    | assign inp =>
      simp only [applyOp, assignDHCPAddress]
      cases hc : inp.confirmArrives
      · simpa [hc] using h
      · simpa [hc] using idUnique_setAddress inp.header.reserved (candidateAddress inp) _ h
    | confirm srcAddr =>
      simp only [applyOp, confirmDHCPAddress]
      split
      · exact idUnique_setAddress _ _ _ h
      · exact h
    | release a =>
      simpa [applyOp, idUnique, map_id_releaseDHCPAddress] using h

/-- C3 witness: a concrete mixed sequence of operations on the empty master
table keeps the table ids pairwise distinct. -/
theorem c3_witness :
    idUnique
      (([MasterOp.setAddr 1 5, MasterOp.setAddr 2 5, MasterOp.release 5,
          MasterOp.setAddr 1 9].foldl applyOp emptyMaster).addressList) :=
  c3_amended _ emptyMaster (by decide)

/-- C4 counterexample: on the master node with an empty binding table,
asking for the master's own id 0 takes the table-scan branch and returns
-1 (with NOT_CONFIGURED), not 0: the id-0 shortcut of the claim does not
exist on the master. -/
theorem c4_counterexample :
    emptyMaster.selfNodeID = MESH_MASTER_NODE_ID ∧
    getAddress emptyMaster 0 LookupNet.timedOut = (-1, ErrorType.NOT_CONFIGURED) := by
  decide

/-- C4 amended: the remote wait bound is 150 ms; on the master every id,
id 0 included, is answered by the first-match table scan (-1 with
NOT_CONFIGURED when absent); an unconfigured non-master returns -1 with
NOT_CONFIGURED even for id 0; a configured non-master returns 0 (with
INVALID_PARAM) for id 0, and otherwise returns -1 with FAILED_WRITE when
the lookup write fails, -1 with FAILED_ADDR_LOOKUP when no reply arrives
within the wait, the master's reply value when it is non-negative, and -2
when it is negative. -/
theorem c4_amended (st : MeshState) (n : Nat) (net : LookupNet) (v : Int) :
    lookupWaitMs = 150
    ∧ (st.selfNodeID = MESH_MASTER_NODE_ID →
        (getAddress st n net).1 =
          (match st.addressList.find? (fun e => e.id = n) with
           | some e => toInt16 e.logicalAddress
           | none => -1))
    ∧ (st.selfNodeID ≠ MESH_MASTER_NODE_ID →
        st.meshNetworkAddress = MESH_DEFAULT_ADDRESS →
        getAddress st n net = (-1, ErrorType.NOT_CONFIGURED))
    ∧ (st.selfNodeID ≠ MESH_MASTER_NODE_ID →
        st.meshNetworkAddress ≠ MESH_DEFAULT_ADDRESS →
        (n = MESH_MASTER_NODE_ID →
            getAddress st n net = (0, ErrorType.INVALID_PARAM))
        ∧ (n ≠ MESH_MASTER_NODE_ID →
            (net = LookupNet.writeFail →
                getAddress st n net = (-1, ErrorType.FAILED_WRITE))
            ∧ (net = LookupNet.timedOut →
                getAddress st n net = (-1, ErrorType.FAILED_ADDR_LOOKUP))
            ∧ (net = LookupNet.reply v →
                (0 ≤ v → (getAddress st n net).1 = v)
                ∧ (v < 0 → (getAddress st n net).1 = -2)))) := by
  refine ⟨rfl, fun h => ?_, fun h1 h2 => ?_, fun h1 h2 => ⟨fun h3 => ?_, fun h3 => ?_⟩⟩
  · rw [← findEntry_eq_find?]
    unfold getAddress
    rw [if_pos h]
    cases findEntry n st.addressList <;> simp
  · simp [getAddress, h1, h2]
  · simp [getAddress, h1, h2, h3]
  · refine ⟨fun h4 => ?_, fun h4 => ?_, fun h4 => ⟨fun h5 => ?_, fun h5 => ?_⟩⟩
    · simp [getAddress, h1, h2, h3, h4]
    · simp [getAddress, h1, h2, h3, h4]
    · simp [getAddress, h1, h2, h3, h4, h5]
    · have hneg : ¬ 0 ≤ v := by omega
      simp [getAddress, h1, h2, h3, h4, hneg]

/-- C4 witness: on the master with the table binding id 3 to address 9,
getAddress 3 equals the find-first table answer. -/
theorem c4_witness :
    (getAddress c4WitState 3 LookupNet.timedOut).1 =
      (match c4WitState.addressList.find? (fun e => e.id = 3) with
       | some e => toInt16 e.logicalAddress
       | none => -1) :=
  (c4_amended c4WitState 3 LookupNet.timedOut 0).2.1 (by decide)

/-- C5 counterexample: after the master releases address 1 held by node id
7, the entry keeps id 7 with its address cleared, yet a master-side
getAddress for id 7 still reports that cleared entry: it returns 0 with no
error recorded — a non-negative result indistinguishable from the master's
own address 0 — instead of refusing the cleared entry as a lookup target. -/
theorem c5_counterexample :
    releaseDHCPAddress 1 [{ id := 7, logicalAddress := 1 }] =
      [{ id := 7, logicalAddress := MESH_EMPTY_ADDRESS }] ∧
    masterLookup 7 (releaseDHCPAddress 1 [{ id := 7, logicalAddress := 1 }]) = 0 ∧
    getAddress c5MasterState 7 LookupNet.timedOut = (0, ErrorType.NO_ERROR) := by
  decide

/-- C5 amended: release clears the address of every entry holding the
released address to MESH_EMPTY_ADDRESS while keeping its id and every
other entry intact; a master-side find-by-id for an id whose first table
entry just had its address released then returns 0 (the cleared value):
the cleared entry is still reported by lookup rather than excluded. -/
theorem c5_amended (a id : Nat) (l₁ l₂ : List NodeAddress) (e : NodeAddress)
    (h1 : ∀ x ∈ l₁, x.id ≠ id) (h2 : e.id = id) :
    releaseDHCPAddress a (l₁ ++ e :: l₂) =
      (l₁ ++ e :: l₂).map
        (fun x => if x.logicalAddress = a then ⟨x.id, MESH_EMPTY_ADDRESS⟩ else x)
    ∧ masterLookup id (releaseDHCPAddress e.logicalAddress (l₁ ++ e :: l₂)) = 0 :=
  ⟨releaseDHCPAddress_eq_map a (l₁ ++ e :: l₂),
   masterLookup_release_found id l₁ l₂ e h1 h2⟩

/-- C5 witness: with an unrelated entry in front, releasing the address of
node id 7 clears exactly the matching entry and the subsequent find-by-id
for 7 reports 0. -/
theorem c5_witness :
    releaseDHCPAddress 1
        (([{ id := 3, logicalAddress := 2 }] : List NodeAddress) ++
          ({ id := 7, logicalAddress := 1 } : NodeAddress) :: []) =
      (([{ id := 3, logicalAddress := 2 }] : List NodeAddress) ++
          ({ id := 7, logicalAddress := 1 } : NodeAddress) :: []).map
        (fun x => if x.logicalAddress = 1 then ⟨x.id, MESH_EMPTY_ADDRESS⟩ else x) ∧
    masterLookup 7
        (releaseDHCPAddress 1
          (([{ id := 3, logicalAddress := 2 }] : List NodeAddress) ++
            ({ id := 7, logicalAddress := 1 } : NodeAddress) :: [])) = 0 :=
  c5_amended 1 7 [{ id := 3, logicalAddress := 2 }] [] { id := 7, logicalAddress := 1 }
    (by decide) rfl

/-- C6: with radio data pending, renewAddress fails recording PENDING_DATA
and leaves the local mesh address untouched; otherwise the address is reset
to MESH_DEFAULT_ADDRESS before the attempts, so any run that does not end
in a successful attempt leaves it at MESH_DEFAULT_ADDRESS and records
TIMEOUT, and the loop stops at the first failed attempt whose elapsed-time
check exceeds the caller's budget — no attempt runs past that point. -/
theorem c6_renew (st : MeshState) (env : RenewEnv) (timeout : Nat) :
    (env.radioAvailable = true →
      renewAddress st env timeout =
        some { result := false
               meshErr := some ErrorType.PENDING_DATA
               finalAddress := st.meshNetworkAddress
               newAddressOut := none
               delays := []
               levels := [] })
    ∧ (env.radioAvailable = false →
        (∀ r, renewAddress st env timeout = some r → r.result = false →
            r.meshErr = some ErrorType.TIMEOUT ∧
            r.finalAddress = MESH_DEFAULT_ADDRESS ∧
            r.newAddressOut = some MESH_BLANK_ID)
        ∧ (∀ pre post e, env.attempts = pre ++ (false, e) :: post →
            (∀ x ∈ pre, x.1 = false ∧ x.2 ≤ timeout) → timeout < e →
            ∃ r, renewAddress st env timeout = some r ∧ r.result = false ∧
              r.meshErr = some ErrorType.TIMEOUT ∧
              r.finalAddress = MESH_DEFAULT_ADDRESS ∧
              r.levels.length = pre.length + 1)) := by
  constructor
  · intro h
    simp [renewAddress, h]
  · intro h
    constructor
    · intro r hr hres
      rw [renewAddress, if_neg (by simp [h])] at hr
      rcases houtcome : (renewLoop timeout 0 0 env.attempts).1 with _ | b
      · rw [houtcome] at hr
        exact absurd hr (by simp)
      · cases b
        · rw [houtcome] at hr
          simp only [Option.some_inj] at hr
          subst hr
          exact ⟨rfl, rfl, rfl⟩
        · rw [houtcome] at hr
          simp only [Option.some_inj] at hr
          subst hr
          exact absurd hres (by simp)
    · intro pre post e hsplit hpre he
      have hstop := renewLoop_stops_at_timeout timeout pre post e 0 0 hpre he
      rw [← hsplit] at hstop
      refine ⟨{ result := false
                meshErr := some ErrorType.TIMEOUT
                finalAddress := MESH_DEFAULT_ADDRESS
                newAddressOut := some MESH_BLANK_ID
                delays := (renewLoop timeout 0 0 env.attempts).2.1
                levels := (renewLoop timeout 0 0 env.attempts).2.2 }, ?_, rfl, rfl, rfl, ?_⟩
      · rw [renewAddress, if_neg (by simp [h])]
        rw [hstop.1]
      · exact hstop.2

/-- C6 witness: with radio data pending, the concrete call fails with
PENDING_DATA leaving the address untouched; and on the concrete trace whose
third check exceeds the 100 ms budget, the loop stops after exactly three
attempts with TIMEOUT. -/
theorem c6_renew_witness :
    renewAddress confNode c6EnvPending 100 =
      some { result := false
             meshErr := some ErrorType.PENDING_DATA
             finalAddress := confNode.meshNetworkAddress
             newAddressOut := none
             delays := []
             levels := [] } ∧
    ∃ r, renewAddress confNode c6EnvTimeout 100 = some r ∧ r.result = false ∧
      r.meshErr = some ErrorType.TIMEOUT ∧
      r.finalAddress = MESH_DEFAULT_ADDRESS ∧
      r.levels.length = 2 + 1 :=
  ⟨(c6_renew confNode c6EnvPending 100).1 rfl,
   ((c6_renew confNode c6EnvTimeout 100).2 rfl).2
     [(false, 40), (false, 90)] [(false, 170)] 160 rfl (by decide) (by decide)⟩

/-- C7: across any run of consecutive failed attempts whose checks stay
within the budget, the j-th backoff delay is exactly
50 + 2 * ((j mod 10) + 1) * ((j mod 4) + 1) milliseconds — reqCounter
cycling 0,1,2,3 and totalReqs cycling 0..9 — and the poll level passed to
the j-th requestAddress attempt is j mod 4. -/
theorem c7_backoff (timeout : Nat) (t : List (Bool × Nat))
    (h : ∀ x ∈ t, x.1 = false ∧ x.2 ≤ timeout) :
    (renewLoop timeout 0 0 t).2.1 =
        List.ofFn (fun j : Fin t.length =>
          50 + 2 * (((j : Nat) % 10) + 1) * (((j : Nat) % 4) + 1))
    ∧ (renewLoop timeout 0 0 t).2.2 =
        List.ofFn (fun j : Fin t.length => (j : Nat) % 4) := by
  have hall := renewLoop_all_fail timeout t 0 0 (by omega) (by omega) h
  constructor
  · rw [hall.1]
    congr 1
    funext j
    simp only [Nat.zero_add]
    ring
  · rw [hall.2]
    congr 1
    funext j
    simp only [Nat.zero_add]

/-- C7 witness: on five concrete failed attempts within a 100 ms budget the
delays are 52, 58, 68, 82, 60 and the poll levels are 0, 1, 2, 3, 0. -/
theorem c7_backoff_witness :
    (renewLoop 100 0 0 c7Trace).2.1 =
        List.ofFn (fun j : Fin c7Trace.length =>
          50 + 2 * (((j : Nat) % 10) + 1) * (((j : Nat) % 4) + 1))
    ∧ (renewLoop 100 0 0 c7Trace).2.2 =
        List.ofFn (fun j : Fin c7Trace.length => (j : Nat) % 4) :=
  c7_backoff 100 c7Trace (by decide)

/-- C8 counterexample: on an unconfigured node whose rx fifo is full on
every iteration, checkConnection still returns false (and places the radio
in standby), refuting the claimed equivalence of the return value with
fifo-full, hold flag or ping success. -/
theorem c8_counterexample :
    unconfNode.meshNetworkAddress = MESH_DEFAULT_ADDRESS ∧
    (c8EnvFifo 0).rxFifoFull = true ∧
    checkConnection unconfNode c8EnvFifo =
      { result := false, pings := 0, delays := [], stopped := true } := by
  decide

/-- C8 amended: on an unconfigured node checkConnection returns false
immediately and places the radio in standby; on a configured node it
returns true exactly when one of the first three iterations sees a full rx
fifo, the HOLD_INCOMING flag, or a successful ping write; it issues at most
3 pings with every inter-ping delay equal to 103 ms; and it calls
stopListening exactly when it returns false — the mesh code issues no
listening-mode call on the success path. -/
theorem c8_connection (st : MeshState) (env : Nat → CheckIter) :
    (st.meshNetworkAddress = MESH_DEFAULT_ADDRESS →
      checkConnection st env =
        { result := false, pings := 0, delays := [], stopped := true })
    ∧ (st.meshNetworkAddress ≠ MESH_DEFAULT_ADDRESS →
        ((checkConnection st env).result = true ↔ ∃ j < 3, iterSignal (env j)))
    ∧ (checkConnection st env).pings ≤ 3
    ∧ (∀ d ∈ (checkConnection st env).delays, d = 103)
    ∧ (checkConnection st env).stopped = !(checkConnection st env).result := by
  refine ⟨fun h => ?_, fun h => ?_, ?_, ?_, ?_⟩
  · simp [checkConnection, h]
  · rw [checkConnection, if_neg h]
    simpa using checkLoop_true_iff env 3 0
  · unfold checkConnection
    split
    · simp
    · exact checkLoop_pings_le env 3 0
  · unfold checkConnection
    split
    · simp
    · exact checkLoop_delays env 3 0
  · unfold checkConnection
    split
    · rfl
    · rfl

/-- C8 witness: on a configured node with a successful ping on the second
iteration, checkConnection returns true in agreement with the existence of
a signalling iteration among the first three. -/
theorem c8_connection_witness :
    (checkConnection confNode c8EnvPing).result = true ↔
      ∃ j < 3, iterSignal (c8EnvPing j) :=
  (c8_connection confNode c8EnvPing).2.1 (by decide)

/-- C9 counterexample: on a configured node whose release write fails,
releaseAddress returns false but records no error at all — the last-error
indicator stays NO_ERROR instead of FAILED_WRITE — and the local address
stays configured. -/
theorem c9_counterexample :
    confNode.meshNetworkAddress ≠ MESH_DEFAULT_ADDRESS ∧
    confNode.oopsies = ErrorType.NO_ERROR ∧
    releaseAddress confNode false =
      { ok := false, st := confNode, sentRelease := true, networkAddrReset := false } ∧
    (releaseAddress confNode false).st.oopsies ≠ ErrorType.FAILED_WRITE := by
  decide

/-- C9 amended: on an unconfigured node releaseAddress fails recording
NOT_CONFIGURED without sending anything; on a configured node it sends
MESH_ADDR_RELEASE and, when the write succeeds, resets both the network
layer's and the mesh layer's address to MESH_DEFAULT_ADDRESS and returns
true; when the write fails it returns false leaving the whole state — the
local address and the last-error indicator included — unchanged, recording
no FAILED_WRITE. -/
theorem c9_release (st : MeshState) (w : Bool) :
    (st.meshNetworkAddress = MESH_DEFAULT_ADDRESS →
      releaseAddress st w =
        { ok := false
          st := { st with oopsies := ErrorType.NOT_CONFIGURED }
          sentRelease := false
          networkAddrReset := false })
    ∧ (st.meshNetworkAddress ≠ MESH_DEFAULT_ADDRESS → w = true →
        releaseAddress st w =
          { ok := true
            st := { st with meshNetworkAddress := MESH_DEFAULT_ADDRESS }
            sentRelease := true
            networkAddrReset := true })
    ∧ (st.meshNetworkAddress ≠ MESH_DEFAULT_ADDRESS → w = false →
        releaseAddress st w =
          { ok := false, st := st, sentRelease := true, networkAddrReset := false }) := by
  refine ⟨fun h => ?_, fun h hw => ?_, fun h hw => ?_⟩
  · simp [releaseAddress, h]
  · simp [releaseAddress, h, hw]
  · simp [releaseAddress, h, hw]

/-- C9 witness: the concrete configured node with a successful write
releases: it returns true and both address resets happen. -/
theorem c9_release_witness :
    releaseAddress confNode true =
      { ok := true
        st := { confNode with meshNetworkAddress := MESH_DEFAULT_ADDRESS }
        sentRelease := true
        networkAddrReset := true } :=
  (c9_release confNode true).2.1 (by decide) rfl

/-- C10: every update() call on an unconfigured node (local address still
MESH_DEFAULT_ADDRESS) returns NO_MESSAGE and records NOT_CONFIGURED while
leaving everything else of the state unchanged, without pumping the network
layer and without dispatching any inbound frame — so no DHCP, lookup,
release or confirm processing runs. -/
theorem c10_update_unconfigured (st : MeshState) (env : UpdateEnv)
    (h : st.meshNetworkAddress = MESH_DEFAULT_ADDRESS) :
    update st env =
      { ret := MessageType.NO_MESSAGE
        st := { st with oopsies := ErrorType.NOT_CONFIGURED }
        pumped := false
        dispatched := false } := by
  rw [update, if_pos h]

/-- C10 witness: the concrete unconfigured node receiving a
MESH_ADDR_RELEASE frame ignores it: NO_MESSAGE is returned, NOT_CONFIGURED
recorded, nothing pumped or dispatched. -/
theorem c10_update_witness :
    update unconfNode
        { incoming := MessageType.MESH_ADDR_RELEASE
          header := { dstNode := 0, srcNode := 1, reserved := 7 } } =
      { ret := MessageType.NO_MESSAGE
        st := { unconfNode with oopsies := ErrorType.NOT_CONFIGURED }
        pumped := false
        dispatched := false } :=
  c10_update_unconfigured unconfNode
    { incoming := MessageType.MESH_ADDR_RELEASE
      header := { dstNode := 0, srcNode := 1, reserved := 7 } } (by decide)

end RF24MeshModel
